import Mathlib

/-!
Shallow embedding of the stm32-flash-corruptor firmware (src/flash.rs,
src/main.rs, src/hw.rs) and proofs about the specified properties.

Hardware registers are modelled as records of their fields.  The flash
status register (FLASH_SR) is written asynchronously by the hardware, so
every place where the driver polls it is parametrised by an observation
stream: `env k` (or `obs k`) is the contents of FLASH_SR as seen by the
k-th read.  The control register (FLASH_CR) is only ever written by the
driver itself, so it is threaded through as explicit state.  Operations
additionally return the list of hardware register writes they performed,
so that claims about "no register write happens on this path" can be
stated directly.
-/

namespace FlashCorruptor

/-- Driver error type, from the enum Error in src/flash.rs. -/
inductive Error
  | UnlockFailed
  | Busy
  | Illegal
  | InvalidPage
deriving DecidableEq, Repr

/-- Fields of the flash status register FLASH_SR that the driver reads or
writes: the busy bit and the sticky error/completion flags. -/
structure SR where
  bsy : Bool
  progerr : Bool
  sizerr : Bool
  pgaerr : Bool
  pgserr : Bool
  wrperr : Bool
  miserr : Bool
  fasterr : Bool
  eop : Bool
deriving DecidableEq, Repr

/-- An SR value with every flag clear (flash idle, no errors). -/
def SR.idle : SR :=
  { bsy := false, progerr := false, sizerr := false, pgaerr := false,
    pgserr := false, wrperr := false, miserr := false, fasterr := false,
    eop := false }

/-- Fields of the flash control register FLASH_CR that the driver touches:
lock bit, program-enable (PG), page-erase enable (PER), bank selector
(BKER), page number (PNB) and the start bit. -/
structure CR where
  lock : Bool
  pg : Bool
  per : Bool
  bker : Bool
  pnb : Nat
  start : Bool
deriving DecidableEq, Repr

/-- A CR value as after reset: locked, nothing enabled. -/
def CR.reset : CR :=
  { lock := true, pg := false, per := false, bker := false, pnb := 0,
    start := false }

/-- One hardware register (or flash memory) write performed by the driver.
Recorded so that theorems can speak about which writes happen on a path. -/
inductive RegWrite
  | srClearProgFlags
  | srClearEop
  | crErasePage (bker : Bool) (pnb : Nat)
  | crStart
  | crClearPer
  | crSetPg
  | crClearPg
  | memWrite (addr : Nat) (value : Nat)
deriving DecidableEq, Repr

/-- Embedding of the private method status of Flash in src/flash.rs: the
flash is Busy if BSY is set, Illegal if PGAERR, PROGERR or WRPERR is set,
and ready otherwise.  Note the source inspects only these three error
flags here. -/
def status (sr : SR) : Except Error Unit :=
  if sr.bsy then .error .Busy
  else if sr.pgaerr || sr.progerr || sr.wrperr then .error .Illegal
  else .ok ()

/-- The bounded polling loop of the wait method of FlashUnlocked in
src/flash.rs: up to fuel iterations, each reading the next SR observation
and breaking as soon as BSY is clear.  Returns the number of SR reads the
loop consumed, so the status re-check after the loop reads observation
number `waitLoopReads obs fuel i`. -/
def waitLoopReads (obs : Nat → SR) (fuel i : Nat) : Nat :=
  match fuel with
  | 0 => i
  | f + 1 => if (obs i).bsy then waitLoopReads obs f (i + 1) else i + 1

/-- Embedding of the wait method of FlashUnlocked in src/flash.rs: poll the
busy bit for at most 100000 iterations, then re-check the status with a
fresh read of FLASH_SR and return its classification. -/
def wait (obs : Nat → SR) : Except Error Unit :=
  status (obs (waitLoopReads obs 100000 0))

/-- Embedding of the unlock method of Flash in src/flash.rs.  The two key
words are written; the hardware clears the LOCK bit when it accepts the
sequence (modelled by the parameter `accepted`: on correct hardware this
is always true).  If LOCK is still set afterwards, UnlockFailed is
returned; otherwise the unlocked capability is produced. -/
def unlock (accepted : Bool) (cr : CR) : Except Error Unit × CR :=
  let cr1 := if accepted then { cr with lock := false } else cr
  if cr1.lock then (.error .UnlockFailed, cr1) else (.ok (), cr1)

/-- Embedding of the Drop implementation for FlashUnlocked in src/flash.rs
(line 41): the destructor modifies FLASH_CR with lock().clear_bit(), i.e.
it writes 0 to the LOCK bit. -/
def flashUnlockedDrop (cr : CR) : CR :=
  { cr with lock := false }

/-- Embedding of is_dualbank of Flash in src/flash.rs: bit 22 (DBANK) of
the option register.  The option register is modelled by its raw 32-bit
value. -/
def is_dualbank (optr : Nat) : Bool :=
  optr / 2 ^ 22 % 2 ≠ 0

/-- Embedding of page_size of Flash in src/flash.rs: 0x1000 in dual-bank
mode, 0x2000 in single-bank mode. -/
def page_size (dbank : Bool) : Nat :=
  if dbank then 0x1000 else 0x2000

/-- Embedding of address_to_page_number of Flash in src/flash.rs: integer
division of the address by the current page size. -/
def address_to_page_number (dbank : Bool) (address : Nat) : Nat :=
  address / page_size dbank

/-- Embedding of erase_page of FlashUnlocked in src/flash.rs, on the
non-kani build.  `env k` is the SR observed by the final status re-check
of the k-th wait call inside this function (the polling loop itself only
reads).  Returns the result, the list of register writes performed, and
the final CR.  Order of operations, as in the source: wait, clear the
sticky programming flags, then the mode-dependent page-number check, then
the CR writes (PER plus bank/page selection, then START), the second
wait, and clearing PER regardless of that wait's outcome. -/
def erase_page (env : Nat → SR) (dbank : Bool) (cr : CR) (page : Nat) :
    Except Error Unit × List RegWrite × CR :=
  match status (env 0) with
  | .error e => (.error e, [], cr)
  | .ok _ =>
    if dbank then
      if 512 ≤ page then (.error .InvalidPage, [.srClearProgFlags], cr)
      else
        let bank := page / 256
        let pnb := page % 256
        let cr1 : CR := { cr with per := true, bker := bank == 1, pnb := pnb }
        let cr2 : CR := { cr1 with start := true }
        (status (env 1),
         [.srClearProgFlags, .crErasePage (bank == 1) pnb, .crStart, .crClearPer],
         { cr2 with per := false })
    else
      if 256 ≤ page then (.error .InvalidPage, [.srClearProgFlags], cr)
      else
        let pnb := page % 256
        let cr1 : CR := { cr with per := true, bker := false, pnb := pnb }
        let cr2 : CR := { cr1 with start := true }
        (status (env 1),
         [.srClearProgFlags, .crErasePage false pnb, .crStart, .crClearPer],
         { cr2 with per := false })

/-- The per-dword programming loop of write_dwords of FlashUnlocked in
src/flash.rs.  For each 64-bit word: write the low 32-bit half to `addr`
and the high half to `addr + 4` (addresses in bytes; a usize write covers
4 bytes), then wait (observing `env k`), returning the wait's error
immediately on failure; on success clear the EOP flag if it is observed
set (`eop k`), and continue with the next word at `addr + 8`.  After the
last word the PG bit is cleared and Ok is returned. -/
def programWords (env : Nat → SR) (eop : Nat → Bool) :
    List Nat → Nat → Nat → CR → List RegWrite →
    Except Error Unit × List RegWrite × CR
  | [], _, _, cr, tr => (.ok (), tr ++ [.crClearPg], { cr with pg := false })
  | w :: ws, addr, k, cr, tr =>
    let tr1 := tr ++ [.memWrite addr (w % 2 ^ 32), .memWrite (addr + 4) (w / 2 ^ 32)]
    match status (env k) with
    | .error e => (.error e, tr1, cr)
    | .ok _ =>
      let tr2 := if eop k then tr1 ++ [.srClearEop] else tr1
      programWords env eop ws (addr + 8) (k + 1) cr tr2

/-- Embedding of write_dwords of FlashUnlocked in src/flash.rs.  `env k`
is the SR observed by the k-th wait call's final status re-check (k = 0
is the initial idle check, k = i + 1 the wait after the i-th word);
`eop k` is whether the EOP flag is observed set after the k-th word's
wait.  Order, as in the source: wait, clear sticky programming flags, set
PG, program each dword with a wait after every word (early return on
error), and clear PG only after the loop completes. -/
def write_dwords (env : Nat → SR) (eop : Nat → Bool) (cr : CR)
    (addr : Nat) (words : List Nat) :
    Except Error Unit × List RegWrite × CR :=
  match status (env 0) with
  | .error e => (.error e, [], cr)
  | .ok _ =>
    programWords env eop words addr 1 { cr with pg := true }
      [.srClearProgFlags, .crSetPg]

/-- Reduction modulo 2 ^ 32, the arithmetic of the 32-bit registers and
u32 values used throughout main.rs. -/
def u32 (n : Nat) : Nat := n % 2 ^ 32

/-- Wrapping 32-bit subtraction, as performed by `top - bottom` on u32
values in a release build. -/
def u32sub (a b : Nat) : Nat := u32 (a + 2 ^ 32 - u32 b)

/-- Constant APPROXIMATE_ADDRESS_TO_CORRUPT from src/main.rs. -/
def APPROXIMATE_ADDRESS_TO_CORRUPT : Nat := 0x2000

/-- Constant CORRUPT_RANGE from src/main.rs. -/
def CORRUPT_RANGE : Nat := 0x8

/-- Constant STATE_BEFORE_WRITE from src/main.rs. -/
def STATE_BEFORE_WRITE : Nat := 1

/-- Constant STATE_AFTER_WRITE from src/main.rs. -/
def STATE_AFTER_WRITE : Nat := 2

/-- Constant MAGIC_VALUE from src/main.rs. -/
def MAGIC_VALUE : Nat := 0x99999999

/-- The five persistent RTC backup registers used by main.rs: slot 0 the
magic sentinel, slot 1 the lower search bound, slot 2 the upper search
bound, slot 3 the phase marker, slot 4 the reset counter. -/
structure Persist where
  magic : Nat
  lo : Nat
  hi : Nat
  phase : Nat
  cnt : Nat
deriving DecidableEq, Repr

/-- The three status LEDs driven through src/hw.rs. -/
structure Leds where
  red : Bool
  green : Bool
  blue : Bool
deriving DecidableEq, Repr

/-- All LEDs off. -/
def Leds.off : Leds := { red := false, green := false, blue := false }

/-- Embedding of the panic handler in src/main.rs (lines 23 to 35): turn
the red LED on, write 0 to backup register slot 0 (the magic sentinel),
then loop feeding the watchdog minimally forever.  Returns the persistent
state and LED state as they remain for the rest of this boot. -/
def panic_handler (p : Persist) (leds : Leds) : Persist × Leds :=
  ({ p with magic := 0 }, { leds with red := true })

/-- Embedding of the cold-boot detection at the start of main in
src/main.rs (lines 109 to 119): when slot 0 does not hold MAGIC_VALUE,
write the magic and initialize the bounds to 100 and 1000000 and the
phase to 0; otherwise leave every slot untouched. -/
def coldInit (p : Persist) : Persist :=
  if p.magic ≠ MAGIC_VALUE then
    { p with magic := MAGIC_VALUE, lo := 100, hi := 1000000, phase := 0 }
  else p

/-- Embedding of the phase-driven bound-update rule of main in src/main.rs
(lines 126 and 134 to 142) on u32 values: compute the middle of the
current interval; in phase before-write move the upper bound down to the
middle, in phase after-write move the lower bound up to the middle, and
in any other phase leave the bounds unchanged. -/
def updateBounds (phase lo hi : Nat) : Nat × Nat :=
  let middle := u32 (lo + hi) / 2
  if phase = STATE_BEFORE_WRITE then (lo, middle)
  else if phase = STATE_AFTER_WRITE then (middle, hi)
  else (lo, hi)

/-- Outcome of the persistent-state logic at the top of a boot: either the
defensive assertion fired (the boot panics and performs no timed attempt),
or the boot proceeds into the timed erase-and-program attempt with the
given persistent state and computed middle delay. -/
inductive BootStep
  | panicked (p : Persist)
  | proceed (p : Persist) (middle : Nat)
deriving DecidableEq, Repr

/-- Embedding of the boot-time persistent-state logic of main in
src/main.rs (lines 109 to 145), in source order: cold-boot
initialization; increment of the reset counter (slot 4); read bottom and
top and compute the middle; the defensive assertion that panics when
top - bottom < 5 (checked on the bounds as read, before any phase-based
update); read the phase and apply the bound-update rule, persisting the
changed bound; recompute the middle; persist phase = before-write.  The
timed attempt itself follows a `proceed` outcome. -/
def bootStep (p0 : Persist) : BootStep :=
  let p1 := coldInit p0
  let p2 := { p1 with cnt := u32 (p1.cnt + 1) }
  let bottom := p2.lo
  let top := p2.hi
  if u32sub top bottom < 5 then .panicked p2
  else
    let b2 := updateBounds p2.phase bottom top
    let p3 := { p2 with lo := b2.1, hi := b2.2 }
    let middle := u32 (b2.1 + b2.2) / 2
    .proceed { p3 with phase := STATE_BEFORE_WRITE } middle

/-- The lower bound held in a boot outcome. -/
def BootStep.loOf : BootStep → Nat
  | .panicked p => p.lo
  | .proceed p _ => p.lo

/-- The upper bound held in a boot outcome. -/
def BootStep.hiOf : BootStep → Nat
  | .panicked p => p.hi
  | .proceed p _ => p.hi

/-- Whether the boot proceeds into the timed erase-and-program attempt. -/
def BootStep.proceeds : BootStep → Bool
  | .panicked _ => false
  | .proceed _ _ => true

/-- Fields of the flash ECC register FLASH_ECCR read by the fault
handler: the ECCD flag (bit 31), the ECCD2 flag (bit 29) and the faulting
address field ADDR_ECC. -/
structure ECCR where
  eccd : Bool
  eccd2 : Bool
  addr_ecc : Nat
deriving DecidableEq, Repr

/-- What the fault handler does after classifying, never returning either
way: loop feeding the watchdog forever (no further reset can occur), or
halt in an empty loop without feeding it. -/
inductive FaultAction
  | feedWatchdogForever
  | haltNoFeed
deriving DecidableEq, Repr

/-- Embedding of the bad_thing_happened macro in src/main.rs (lines 37 to
78), the body of every fault handler: read FLASH_ECCR; the fault counts
as a flash ECC fault when ECCD is set (dual-bank mode, where ECCD2 is
reserved) or when ECCD or ECCD2 is set (single-bank mode); if so and the
faulting address lies in [APPROXIMATE_ADDRESS_TO_CORRUPT,
APPROXIMATE_ADDRESS_TO_CORRUPT + CORRUPT_RANGE), turn the green LED on
and feed the watchdog forever; if an ECC fault outside that window, turn
the red LED on and halt; otherwise turn the red and blue LEDs on and
halt. -/
def bad_thing_happened (dbank : Bool) (e : ECCR) (leds : Leds) :
    Leds × FaultAction :=
  let is_flash_nmi := if dbank then e.eccd else e.eccd || e.eccd2
  if is_flash_nmi then
    if APPROXIMATE_ADDRESS_TO_CORRUPT ≤ e.addr_ecc ∧
        e.addr_ecc < APPROXIMATE_ADDRESS_TO_CORRUPT + CORRUPT_RANGE then
      ({ leds with green := true }, .feedWatchdogForever)
    else
      ({ leds with red := true }, .haltNoFeed)
  else
    ({ leds with red := true, blue := true }, .haltNoFeed)

/-- Iterating the bound-update rule under a phase oracle: `oracle n` is
the phase outcome recorded by the n-th attempt. -/
def iterBounds (oracle : Nat → Nat) : Nat → Nat × Nat → Nat × Nat
  | 0, b => b
  | n + 1, b =>
    iterBounds (fun k => oracle (k + 1)) n (updateBounds (oracle 0) b.1 b.2)

/-- An SR observation stream in which the flash is always idle and error
free. -/
def envIdle : Nat → SR := fun _ => SR.idle

/-- An SR observation stream that is idle for the initial check and busy
for every later wait: the hardware never finishes the first programming
unit. -/
def envBusyAfterFirst : Nat → SR :=
  fun k => if k = 0 then SR.idle else { SR.idle with bsy := true }

/-- No EOP flag is ever observed set. -/
def noEop : Nat → Bool := fun _ => false

/-- A CR as after a successful unlock: like reset but with LOCK clear. -/
def crUnlocked : CR := { CR.reset with lock := false }

/-- An SR with only the size error flag set. -/
def srSizeErr : SR := { SR.idle with sizerr := true }

/-- An SR with only the alignment error flag set. -/
def srPgaErr : SR := { SR.idle with pgaerr := true }

/-- Persistent state of Scenario B in the specification: initialized
bounds 100 and 1000000 with phase before-write. -/
def scenarioB : Persist :=
  { magic := MAGIC_VALUE, lo := 100, hi := 1000000,
    phase := STATE_BEFORE_WRITE, cnt := 0 }

/-- Persistent state whose interval is wide enough to pass the boot-time
check but collapses below the threshold after the phase-based bound
update of the same boot. -/
def scenarioCollapse : Persist :=
  { magic := MAGIC_VALUE, lo := 100, hi := 107,
    phase := STATE_BEFORE_WRITE, cnt := 0 }

/-- The dword array written by main in src/main.rs (line 189): zero,
repeated CORRUPT_RANGE / 8 + 1 times. -/
def corruptWords : List Nat := List.replicate (CORRUPT_RANGE / 8 + 1) 0

/-- Arithmetic helper: u32 is the identity below 2 ^ 32. -/
theorem u32_eq_of_lt {n : Nat} (h : n < 2 ^ 32) : u32 n = n :=
  Nat.mod_eq_of_lt h

/-- Arithmetic helper: wrapping u32 subtraction agrees with truncated
subtraction when the operands are in range and ordered. -/
theorem u32sub_eq {a b : Nat} (hba : b ≤ a) (ha : a < 2 ^ 32) :
    u32sub a b = a - b := by
  unfold u32sub u32
  rw [Nat.mod_eq_of_lt (Nat.lt_of_le_of_lt hba ha)]
  have h1 : a + 2 ^ 32 - b = (a - b) + 2 ^ 32 := by omega
  rw [h1, Nat.add_mod_right, Nat.mod_eq_of_lt (by omega)]

/-! ## C1: relocking on release of the unlocked capability -/

/-- C1: the claim that releasing the unlocked capability sets the lock bit
again fails on the code.  Starting from the reset CR (LOCK set), a
successful unlock clears LOCK, and the Drop implementation then writes
lock().clear_bit(), so the lock bit ends clear, not set as before the
unlock — the destructor's own comment says it locks the flash again, but
clearing the LOCK bit leaves the flash unlocked. -/
theorem C1_drop_leaves_flash_unlocked :
    CR.reset.lock = true ∧
    (unlock true CR.reset).1 = .ok () ∧
    (flashUnlockedDrop (unlock true CR.reset).2).lock = false :=
  ⟨rfl, rfl, rfl⟩

/-! ## C4: Scenario B bound update -/

/-- C4 counterexample: on Scenario B the new upper bound is 500050, the
middle of 100 and 1000000, not 550000 as the claim states. -/
theorem C4_new_upper_bound_not_550000 :
    (bootStep scenarioB).hiOf ≠ 550000 ∧ (bootStep scenarioB).hiOf = 500050 :=
  ⟨by decide, by decide⟩

/-- C4 amended: booting with persisted phase before-write and bounds 100
and 1000000 moves the upper bound down to 500050 (the middle computed
from the previous bounds), recomputes the middle as 250075, and rewrites
phase before-write (and increments the reset counter) before proceeding
into the new timed attempt. -/
theorem C4_scenario_b_bound_update :
    bootStep scenarioB =
      .proceed { magic := MAGIC_VALUE, lo := 100, hi := 500050,
                 phase := STATE_BEFORE_WRITE, cnt := 1 } 250075 := by
  decide

/-! ## C8: intended-fault classification -/

/-- C8: whenever the fault handler observes a latched ECC error flag (in
the bank mode's own bit layout) and the faulting address lies inside the
target window, including exactly at its inclusive lower edge, it turns
the green success LED on and enters the loop that feeds the watchdog
forever, never permitting another reset. -/
theorem C8_intended_fault_feeds_forever (dbank : Bool) (e : ECCR) (leds : Leds)
    (hecc : (if dbank then e.eccd else e.eccd || e.eccd2) = true)
    (hlo : APPROXIMATE_ADDRESS_TO_CORRUPT ≤ e.addr_ecc)
    (hhi : e.addr_ecc < APPROXIMATE_ADDRESS_TO_CORRUPT + CORRUPT_RANGE) :
    bad_thing_happened dbank e leds =
      ({ leds with green := true }, .feedWatchdogForever) := by
  simp [bad_thing_happened, hecc, hlo, hhi]

/-- C8 witness: a dual-bank ECC fault exactly at the window's lower edge
0x2000 is classified as the intended outcome. -/
theorem C8_intended_fault_feeds_forever_witness :
    bad_thing_happened true { eccd := true, eccd2 := false, addr_ecc := 0x2000 }
        Leds.off =
      ({ Leds.off with green := true }, .feedWatchdogForever) :=
  C8_intended_fault_feeds_forever true
    { eccd := true, eccd2 := false, addr_ecc := 0x2000 } Leds.off
    rfl (by decide) (by decide)

/-! ## C9: panic handler forces the cold-boot path -/

/-- C9: every panic asserts the red failure LED and zeroes persistent slot
0, the magic sentinel, so the cold-boot initialization of the next boot
sees a mismatching sentinel and resets the bounds to 100 and 1000000 and
the phase to 0. -/
theorem C9_panic_resets_search_state (p : Persist) (leds : Leds) :
    (panic_handler p leds).1.magic = 0 ∧
    (panic_handler p leds).2.red = true ∧
    coldInit (panic_handler p leds).1 =
      { (panic_handler p leds).1 with
          magic := MAGIC_VALUE, lo := 100, hi := 1000000, phase := 0 } := by
  refine ⟨rfl, rfl, ?_⟩
  have h : (0 : Nat) ≠ MAGIC_VALUE := by decide
  simp [panic_handler, coldInit, h]

/-! ## C10: the program step writes beyond the accepted window -/

/-- C10: the program step writes CORRUPT_RANGE / 8 + 1 = 2 zero-valued
64-bit words starting at the target address, i.e. four 32-bit halves
covering CORRUPT_RANGE + 8 = 16 bytes, strictly more than the
CORRUPT_RANGE-byte window the fault classifier accepts; an ECC fault at
the written byte APPROXIMATE_ADDRESS_TO_CORRUPT + CORRUPT_RANGE is
classified as unintended. -/
theorem C10_write_exceeds_accepted_window :
    CORRUPT_RANGE / 8 + 1 = 2 ∧
    (write_dwords envIdle noEop crUnlocked APPROXIMATE_ADDRESS_TO_CORRUPT
        corruptWords).2.1 =
      [.srClearProgFlags, .crSetPg,
       .memWrite APPROXIMATE_ADDRESS_TO_CORRUPT 0,
       .memWrite (APPROXIMATE_ADDRESS_TO_CORRUPT + 4) 0,
       .memWrite (APPROXIMATE_ADDRESS_TO_CORRUPT + 8) 0,
       .memWrite (APPROXIMATE_ADDRESS_TO_CORRUPT + 12) 0,
       .crClearPg] ∧
    8 * (CORRUPT_RANGE / 8 + 1) = CORRUPT_RANGE + 8 ∧
    CORRUPT_RANGE < 8 * (CORRUPT_RANGE / 8 + 1) ∧
    (bad_thing_happened true
        { eccd := true, eccd2 := false,
          addr_ecc := APPROXIMATE_ADDRESS_TO_CORRUPT + CORRUPT_RANGE }
        Leds.off).2 = .haltNoFeed :=
  ⟨rfl, rfl, rfl, by decide, rfl⟩

/-! ## C2: clearing of the program-enable bit -/

/-- Helper: whenever the per-dword programming loop returns Ok it has
cleared the PG bit. -/
theorem programWords_ok_pg (env : Nat → SR) (eop : Nat → Bool) :
    ∀ (words : List Nat) (addr k : Nat) (cr : CR) (tr : List RegWrite),
      (programWords env eop words addr k cr tr).1 = .ok () →
      (programWords env eop words addr k cr tr).2.2.pg = false := by
  intro words
  induction words with
  | nil =>
    intro addr k cr tr _
    simp [programWords]
  | cons w ws ih =>
    intro addr k cr tr h
    simp only [programWords] at h ⊢
    cases h0 : status (env k) with
    | error e => simp [h0] at h
    | ok u => simp only [h0] at h ⊢; exact ih _ _ _ _ h

/-- C2 counterexample: when the wait after the first programmed word times
out (flash still busy), write_dwords returns the Busy error by an early
return that leaves the PG bit set, so the claim that PG is cleared at the
end regardless of outcome is false. -/
theorem C2_pg_left_set_on_failed_word_wait :
    (write_dwords envBusyAfterFirst noEop crUnlocked 0x2000 [0]).1 =
      .error .Busy ∧
    (write_dwords envBusyAfterFirst noEop crUnlocked 0x2000 [0]).2.2.pg =
      true :=
  ⟨rfl, rfl⟩

/-- C2 amended: write_dwords clears the PG bit at the end of every call
that returns Ok; the error-returning paths do not clear it (a failing
per-word wait returns with PG still set, and a failing initial wait
returns before PG was touched). -/
theorem C2_pg_cleared_on_success (env : Nat → SR) (eop : Nat → Bool)
    (cr : CR) (addr : Nat) (words : List Nat)
    (h : (write_dwords env eop cr addr words).1 = .ok ()) :
    (write_dwords env eop cr addr words).2.2.pg = false := by
  simp only [write_dwords] at h ⊢
  cases h0 : status (env 0) with
  | error e => simp [h0] at h
  | ok u =>
    simp only [h0] at h ⊢
    exact programWords_ok_pg env eop words addr 1 _ _ h

/-- C2 witness: a successful two-word write ends with PG clear. -/
theorem C2_pg_cleared_on_success_witness :
    (write_dwords envIdle noEop crUnlocked 0x2000 [0, 0]).2.2.pg = false :=
  C2_pg_cleared_on_success envIdle noEop crUnlocked 0x2000 [0, 0] rfl

/-! ## C3: page validation versus register writes -/

/-- C3 counterexample: rejecting page 512 in dual-bank mode does return
InvalidPage, but the register-write trace of the rejected path is not
empty — the sticky-error-flag clear (an SR register write) has already
happened before the validation. -/
theorem C3_register_write_on_rejected_path :
    (erase_page envIdle true CR.reset 512).1 = .error .InvalidPage ∧
    (erase_page envIdle true CR.reset 512).2.1 = [.srClearProgFlags] ∧
    [RegWrite.srClearProgFlags] ≠ ([] : List RegWrite) :=
  ⟨rfl, rfl, by simp⟩

/-- C3 amended: for every page number at or above the mode-dependent page
count (512 dual-bank, 256 single-bank), erase_page returns InvalidPage
provided the initial busy wait succeeds; the rejected path performs
exactly one register write, the clearing of the sticky error flags, which
precedes the validation — in particular no control-register (FLASH_CR)
write occurs and the CR is returned unchanged. -/
theorem C3_invalid_page_after_flag_clear (env : Nat → SR) (dbank : Bool)
    (cr : CR) (page : Nat) (h0 : status (env 0) = .ok ())
    (hp : (if dbank then 512 else 256) ≤ page) :
    erase_page env dbank cr page =
      (.error .InvalidPage, [.srClearProgFlags], cr) := by
  cases dbank with
  | false =>
    simp only [Bool.false_eq_true, if_false] at hp
    simp [erase_page, h0, hp]
  | true =>
    simp only [if_true] at hp
    simp [erase_page, h0, hp]

/-- C3 witness: rejecting page 512 in dual-bank mode from an idle flash
yields InvalidPage, one SR flag-clear write, and an unchanged CR. -/
theorem C3_invalid_page_after_flag_clear_witness :
    erase_page envIdle true CR.reset 512 =
      (.error .InvalidPage, [.srClearProgFlags], CR.reset) :=
  C3_invalid_page_after_flag_clear envIdle true CR.reset 512 rfl (by decide)

/-! ## C5: classification of the status re-check in wait -/

/-- C5 counterexample: with the size error flag set (flash idle), wait
returns Ok, although the claim requires Illegal for any sticky error
flag — the status re-check only inspects the alignment, programming and
write-protection error flags. -/
theorem C5_size_error_not_illegal :
    srSizeErr.sizerr = true ∧ wait (fun _ => srSizeErr) = .ok () :=
  ⟨rfl, rfl⟩

/-- C5 amended: after the bounded polling loop exits, wait re-checks the
status on a fresh SR read and returns Busy if the busy bit is still set,
Illegal if any of the alignment (PGAERR), programming (PROGERR) or
write-protection (WRPERR) error flags is set, and Ok otherwise — the
size, sequence, mismatch and fast-programming error flags are not
inspected by this re-check. -/
theorem C5_wait_reclassifies_status (obs : Nat → SR) :
    ((obs (waitLoopReads obs 100000 0)).bsy = true →
      wait obs = .error .Busy) ∧
    ((obs (waitLoopReads obs 100000 0)).bsy = false →
      ((obs (waitLoopReads obs 100000 0)).pgaerr ||
       (obs (waitLoopReads obs 100000 0)).progerr ||
       (obs (waitLoopReads obs 100000 0)).wrperr) = true →
      wait obs = .error .Illegal) ∧
    ((obs (waitLoopReads obs 100000 0)).bsy = false →
      ((obs (waitLoopReads obs 100000 0)).pgaerr ||
       (obs (waitLoopReads obs 100000 0)).progerr ||
       (obs (waitLoopReads obs 100000 0)).wrperr) = false →
      wait obs = .ok ()) := by
  refine ⟨?_, ?_, ?_⟩
  · intro h1
    simp [wait, status, h1]
  · intro h1 h2
    simp [wait, status, h1, h2]
  · intro h1 h2
    simp [wait, status, h1, h2]

/-- C5 witness: with only the alignment error flag set the re-check
returns Illegal. -/
theorem C5_wait_reclassifies_status_witness :
    wait (fun _ => srPgaErr) = .error .Illegal :=
  (C5_wait_reclassifies_status (fun _ => srPgaErr)).2.1 rfl rfl

/-! ## C6: the minimum-interval check -/

/-- C6 counterexample: a boot with bounds 100 and 107 and phase
before-write passes the boot-time check (interval 7), then the bound
update shrinks the interval to 3, below the minimum threshold 5 — yet the
boot still proceeds into the timed erase-and-program attempt, so the
claim that a post-update collapsed interval prevents another attempt in
the same boot is false. -/
theorem C6_post_update_collapse_still_attempts :
    (bootStep scenarioCollapse).proceeds = true ∧
    (bootStep scenarioCollapse).hiOf - (bootStep scenarioCollapse).loOf = 3 ∧
    (3 : Nat) < 5 :=
  ⟨by decide, by decide, by decide⟩

/-- C6 amended: a boot whose persisted interval, as read before the
phase-based bound update, is below the threshold 5 panics at the
defensive assertion and performs no timed attempt in that boot; the
interval resulting from the same boot's bound update is not checked
(detection of such a collapse is deferred to the next boot). -/
theorem C6_collapsed_interval_panics (p : Persist)
    (hm : p.magic = MAGIC_VALUE) (hlo : p.lo ≤ p.hi) (hhi : p.hi < 2 ^ 32)
    (hcol : p.hi - p.lo < 5) :
    bootStep p = .panicked { p with cnt := u32 (p.cnt + 1) } := by
  have hcold : coldInit p = p := by simp [coldInit, hm]
  have hs : u32sub p.hi p.lo < 5 := by
    rw [u32sub_eq hlo hhi]; exact hcol
  simp only [bootStep, hcold]
  simp [hs]

/-- C6 witness: bounds 100 and 103 (interval 3) panic at boot, with only
the reset counter advanced. -/
theorem C6_collapsed_interval_panics_witness :
    bootStep { magic := MAGIC_VALUE, lo := 100, hi := 103,
               phase := STATE_BEFORE_WRITE, cnt := 7 } =
      .panicked { magic := MAGIC_VALUE, lo := 100, hi := 103,
                  phase := STATE_BEFORE_WRITE, cnt := 8 } :=
  C6_collapsed_interval_panics _ rfl (by decide) (by decide) (by decide)

/-! ## C7: behaviour of the bound-update rule -/

/-- Helper: one application of the bound-update rule keeps the new bounds
inside the previous interval. -/
theorem updateBounds_contained (phase lo hi : Nat) (hlh : lo ≤ hi)
    (hfit : lo + hi < 2 ^ 32) :
    lo ≤ (updateBounds phase lo hi).1 ∧ (updateBounds phase lo hi).2 ≤ hi ∧
    (updateBounds phase lo hi).1 ≤ (updateBounds phase lo hi).2 := by
  have hm1 : lo ≤ (lo + hi) / 2 := by omega
  have hm2 : (lo + hi) / 2 ≤ hi := by omega
  simp only [updateBounds, u32_eq_of_lt hfit]
  split
  · exact ⟨Nat.le_refl lo, hm2, hm1⟩
  · split
    · exact ⟨hm1, Nat.le_refl hi, hm2⟩
    · exact ⟨Nat.le_refl lo, Nat.le_refl hi, hlh⟩

/-- Helper: one application of the bound-update rule on a before-write or
after-write phase strictly shrinks an interval of width at least 2. -/
theorem updateBounds_shrinks (phase lo hi : Nat)
    (hph : phase = STATE_BEFORE_WRITE ∨ phase = STATE_AFTER_WRITE)
    (h2 : 2 ≤ hi - lo) (hfit : lo + hi < 2 ^ 32) :
    (updateBounds phase lo hi).2 - (updateBounds phase lo hi).1 <
      hi - lo := by
  rcases hph with h | h <;>
    simp only [updateBounds, u32_eq_of_lt hfit, h, STATE_BEFORE_WRITE,
      STATE_AFTER_WRITE] <;>
    simp <;> omega

/-- Helper: iterating the bound-update rule under any oracle that always
answers before-write or after-write reaches an interval below the
minimum threshold 5. -/
theorem iterBounds_reaches_threshold :
    ∀ (k lo hi : Nat), hi - lo ≤ k → lo ≤ hi → 2 * hi < 2 ^ 32 →
      ∀ oracle : Nat → Nat,
        (∀ n, oracle n = STATE_BEFORE_WRITE ∨ oracle n = STATE_AFTER_WRITE) →
        ∃ n, (iterBounds oracle n (lo, hi)).2 -
               (iterBounds oracle n (lo, hi)).1 < 5 := by
  intro k
  induction k with
  | zero =>
    intro lo hi hk _ _ oracle _
    exact ⟨0, by simp only [iterBounds]; omega⟩
  | succ k ih =>
    intro lo hi hk hlh hfit oracle hor
    by_cases h5 : hi - lo < 5
    · exact ⟨0, by simp only [iterBounds]; omega⟩
    · have h2 : 2 ≤ hi - lo := by omega
      have hfit' : lo + hi < 2 ^ 32 := by omega
      have hmem := updateBounds_contained (oracle 0) lo hi hlh hfit'
      have hshr := updateBounds_shrinks (oracle 0) lo hi (hor 0) h2 hfit'
      obtain ⟨n, hn⟩ := ih (updateBounds (oracle 0) lo hi).1
        (updateBounds (oracle 0) lo hi).2 (by omega) hmem.2.2 (by omega)
        (fun j => oracle (j + 1)) (fun j => hor (j + 1))
      refine ⟨n + 1, ?_⟩
      simpa [iterBounds] using hn

/-- C7 amended: for every interval with lo at most hi fitting in u32
(twice the upper bound below 2 ^ 32): the updated bounds always stay
inside the previous interval and remain ordered; an update driven by a
before-write or after-write phase strictly shrinks the interval whenever
its width is at least 2 (at width exactly 1 the after-write update leaves
the bounds unchanged, so strict shrinking at every width fails); and
iterating the rule under any before-write or after-write oracle reaches
an interval below the minimum threshold 5. -/
theorem C7_bound_update_behaviour (lo hi : Nat) (hlh : lo ≤ hi)
    (hfit : 2 * hi < 2 ^ 32) :
    (∀ phase, lo ≤ (updateBounds phase lo hi).1 ∧
       (updateBounds phase lo hi).2 ≤ hi ∧
       (updateBounds phase lo hi).1 ≤ (updateBounds phase lo hi).2) ∧
    (∀ phase, (phase = STATE_BEFORE_WRITE ∨ phase = STATE_AFTER_WRITE) →
       2 ≤ hi - lo →
       (updateBounds phase lo hi).2 - (updateBounds phase lo hi).1 <
         hi - lo) ∧
    (∀ oracle : Nat → Nat,
       (∀ n, oracle n = STATE_BEFORE_WRITE ∨ oracle n = STATE_AFTER_WRITE) →
       ∃ n, (iterBounds oracle n (lo, hi)).2 -
              (iterBounds oracle n (lo, hi)).1 < 5) := by
  have hfit' : lo + hi < 2 ^ 32 := by omega
  exact ⟨fun phase => updateBounds_contained phase lo hi hlh hfit',
    fun phase hph h2 => updateBounds_shrinks phase lo hi hph h2 hfit',
    fun oracle hor =>
      iterBounds_reaches_threshold (hi - lo) lo hi (Nat.le_refl _) hlh hfit
        oracle hor⟩

/-- C7 witness: on the initial interval 100 to 1000000, the before-write
update strictly shrinks the interval. -/
theorem C7_bound_update_behaviour_witness :
    (updateBounds STATE_BEFORE_WRITE 100 1000000).2 -
      (updateBounds STATE_BEFORE_WRITE 100 1000000).1 < 1000000 - 100 :=
  (C7_bound_update_behaviour 100 1000000 (by decide) (by decide)).2.1
    STATE_BEFORE_WRITE (Or.inl rfl) (by decide)

/-- C7 counterexample: on the interval 100 to 101 the after-write update
returns the bounds unchanged, so its width does not strictly shrink,
refuting strict shrinking for every phase outcome on every interval with
lo < hi. -/
theorem C7_after_write_no_shrink_at_width_one :
    updateBounds STATE_AFTER_WRITE 100 101 = (100, 101) ∧
    ¬ ((updateBounds STATE_AFTER_WRITE 100 101).2 -
        (updateBounds STATE_AFTER_WRITE 100 101).1 < 101 - 100) :=
  ⟨by decide, by decide⟩

end FlashCorruptor
